import Mathlib

/-
Verification of the VideoPlayer repository (src/VideoPlayer.py and
src/VectorClasses.py) against its natural-language specification.

Shallow embedding conventions:
- Python ints are modelled as Lean Int.
- Python floats are modelled as exact rationals (Rat); the float literal
  0.25 is exact in binary, 0.85 is modelled as 17/20.  Python int(...)
  applied to a float truncates toward zero, modelled by ratTrunc.
- Python // (floor division) on ints is Int.fdiv; int // float is the
  rational floor of the division.
- The external frame source (cv2.VideoCapture) is modelled by an explicit
  decoder position: vid.set(1, p) sets the position, vid.read() returns a
  frame and advances the position whenever the position is below the frame
  count (a negative position reads like position 0, as the real backends
  clamp), and fails otherwise.
- draw_frame(frame) is modelled as failing (crashing the program, i.e.
  returning none) when the frame is None, because cv2.resize raises on a
  None frame; it has no other state effect.
-/

namespace VideoPlayer

/-- Truncation toward zero of a rational, the semantics of Python int()
applied to a float. -/
def ratTrunc (q : ℚ) : ℤ :=
  if 0 ≤ q then ⌊q⌋ else ⌈q⌉

/-- The 2D integer vector of src/VectorClasses.py. -/
@[ext] structure IntVector2 where
  x : ℤ
  y : ℤ
deriving DecidableEq, Repr

/-- IntVector2.__add__: componentwise sum (both components are ints). -/
instance : Add IntVector2 := ⟨fun v w => ⟨v.x + w.x, v.y + w.y⟩⟩

/-- The float branch of IntVector2.__mul__ / __rmul__:
IntVector2(int(self.x * other), int(self.y * other)). -/
def IntVector2.mulFloat (v : IntVector2) (other : ℚ) : IntVector2 :=
  ⟨ratTrunc ((v.x : ℚ) * other), ratTrunc ((v.y : ℚ) * other)⟩

/-- IntVector2.__str__: "(x, y)". -/
def IntVector2.str (v : IntVector2) : String :=
  "(" ++ toString v.x ++ ", " ++ toString v.y ++ ")"

/-- A Python number as seen by isinstance checks: an int or a float. -/
inductive PyNum where
  | int (z : ℤ)
  | float (q : ℚ)
deriving DecidableEq

/-- IntVector2.__init__: raises ValueError unless both arguments are
ints. -/
def IntVector2.init (x y : PyNum) : Except String IntVector2 :=
  match x, y with
  | .int a, .int b => .ok ⟨a, b⟩
  | _, _ => .error "Numbers need to be of type integer"

/-- IntVector2.__add__ routed through the validating constructor: the
arguments IntVector2.init receives are the int sums self.x + other.x and
self.y + other.y. -/
def IntVector2.add_checked (v w : IntVector2) : Except String IntVector2 :=
  IntVector2.init (.int (v.x + w.x)) (.int (v.y + w.y))

/-- The int branch of IntVector2.__mul__ routed through the validating
constructor. -/
def IntVector2.mul_int_checked (v : IntVector2) (other : ℤ) : Except String IntVector2 :=
  IntVector2.init (.int (v.x * other)) (.int (v.y * other))

/-- The float branch of IntVector2.__mul__ routed through the validating
constructor: int(self.x * other) is an int by construction. -/
def IntVector2.mul_float_checked (v : IntVector2) (other : ℚ) : Except String IntVector2 :=
  IntVector2.init (.int (ratTrunc ((v.x : ℚ) * other))) (.int (ratTrunc ((v.y : ℚ) * other)))

/-- The per-video constants read once in VideoPlayer.__init__ from the
opened source and the monitor. -/
structure VideoConfig where
  frames_per_second : ℤ
  amount_of_frames : ℤ
  vid_size : IntVector2
  monitor_size : IntVector2
  realFPS : ℚ
deriving DecidableEq

/-- skipping_time = 3 (in seconds). -/
def skipping_time : ℤ := 3

/-- self.milseconds_per_frame = int(428 / self.frames_per_second). -/
def milseconds_per_frame (fps : ℤ) : ℤ :=
  ratTrunc (428 / (fps : ℚ))

/-- Modelled from the spec: the timing-policy formula the specification
states, frameIntervalMillis = round(1000 / targetFPS), for comparison
with the source computation milseconds_per_frame. -/
def spec_frame_interval (fps : ℤ) : ℤ :=
  round ((1000 : ℚ) / (fps : ℚ))

/-- The mutable state of VideoPlayer: playback position, decoder
position, the boolean properties, view geometry, and the teardown
bookkeeping (source_open mirrors vid.isOpened(), release_count counts
calls to vid.release()).  is_zoomed is the view field of the spec's
toggle-zoom action, which has no code under src/. -/
@[ext] structure PlayerState where
  current_frame : ℤ
  pos : ℤ
  is_running : Bool
  is_paused : Bool
  is_fullscreen : Bool
  show_debug_text : Bool
  flip_horizontally : Bool
  is_zoomed : Bool
  screen_scale : ℤ
  displayed_vid_size : IntVector2
  source_open : Bool
  release_count : ℕ
deriving DecidableEq, Repr

/-- The state VideoPlayer.__init__ establishes before update() runs. -/
def initialState (cfg : VideoConfig) : PlayerState :=
  { current_frame := 0
    pos := 0
    is_running := true
    is_paused := false
    is_fullscreen := false
    show_debug_text := false
    flip_horizontally := false
    is_zoomed := false
    screen_scale := 0
    displayed_vid_size := cfg.vid_size
    source_open := true
    release_count := 0 }

/-- VideoPlayer.get_frame(frame_to_get): for a target other than the
sentinel -1, clamp it into [0, amount_of_frames], seek the decoder to
target - 1 and set current_frame to target - 1; then read a frame,
increment current_frame, and clear is_running when the read fails.
Returns the read's success flag together with the new state. -/
def get_frame (cfg : VideoConfig) (s : PlayerState) (frame_to_get : ℤ) : Bool × PlayerState :=
  let s1 :=
    if frame_to_get ≠ -1 then
      let f := min (max 0 frame_to_get) cfg.amount_of_frames
      { s with pos := f - 1, current_frame := f - 1 }
    else s
  let ret : Bool := decide (s1.pos < cfg.amount_of_frames)
  (ret,
    { s1 with
        current_frame := s1.current_frame + 1
        pos := if ret then s1.pos + 1 else s1.pos
        is_running := if ret then s1.is_running else false })

/-- VideoPlayer.draw_frame: cv2.resize raises when the frame is None
(i.e. when the preceding read failed), which aborts the program; this is
modelled by none.  A successful draw does not change the state. -/
def draw_frame (ret : Bool) (s : PlayerState) : Option PlayerState :=
  if ret then some s else none

/-- VideoPlayer.__del__, reached through quit_video: clear is_paused and
is_running, release the source if it is still open, destroy windows. -/
def quit_video (s : PlayerState) : PlayerState :=
  let s1 := { s with is_paused := false, is_running := false }
  if s1.source_open then
    { s1 with source_open := false, release_count := s1.release_count + 1 }
  else s1

/-- VideoPlayer.toggle_pause. -/
def toggle_pause (s : PlayerState) : PlayerState :=
  { s with is_paused := !s.is_paused }

/-- VideoPlayer.skip_forward: seek to current + fps * skipping_time and
draw the returned frame. -/
def skip_forward (cfg : VideoConfig) (s : PlayerState) : Option PlayerState :=
  let p := get_frame cfg s (s.current_frame + cfg.frames_per_second * skipping_time)
  draw_frame p.1 p.2

/-- VideoPlayer.skip_backward: seek to current - fps * skipping_time and
draw the returned frame. -/
def skip_backward (cfg : VideoConfig) (s : PlayerState) : Option PlayerState :=
  let p := get_frame cfg s (s.current_frame - cfg.frames_per_second * skipping_time)
  draw_frame p.1 p.2

/-- VideoPlayer.skip_one_frame_forward. -/
def skip_one_frame_forward (cfg : VideoConfig) (s : PlayerState) : Option PlayerState :=
  let p := get_frame cfg s (s.current_frame + 1)
  draw_frame p.1 p.2

/-- VideoPlayer.skip_one_frame_backward. -/
def skip_one_frame_backward (cfg : VideoConfig) (s : PlayerState) : Option PlayerState :=
  let p := get_frame cfg s (s.current_frame - 1)
  draw_frame p.1 p.2

/-- VideoPlayer.toggle_debug: flip show_debug_text, re-read the current
frame and draw it. -/
def toggle_debug (cfg : VideoConfig) (s : PlayerState) : Option PlayerState :=
  let s1 := { s with show_debug_text := !s.show_debug_text }
  let p := get_frame cfg s1 s1.current_frame
  draw_frame p.1 p.2

/-- VideoPlayer.change_screen_size: clear is_fullscreen, derive the
displayed size from screen_scale and the native size.  The scalar
products follow the Python expressions 0.25*screen_scale * vid_size
(float __rmul__) and vid_size * (0.85 * -1/screen_scale) (float
__mul__). -/
def change_screen_size (cfg : VideoConfig) (s : PlayerState) : PlayerState :=
  let s1 := { s with is_fullscreen := false }
  let new_size :=
    if s1.screen_scale = 0 then cfg.vid_size
    else if 0 < s1.screen_scale then
      cfg.vid_size + IntVector2.mulFloat cfg.vid_size ((0.25 : ℚ) * (s1.screen_scale : ℚ))
    else
      IntVector2.mulFloat cfg.vid_size ((0.85 : ℚ) * (-1) / (s1.screen_scale : ℚ))
  { s1 with displayed_vid_size := new_size }

/-- VideoPlayer.screen_scale_up: screen_scale := min(4, screen_scale+1),
re-derive the screen size, re-read and draw the current frame. -/
def screen_scale_up (cfg : VideoConfig) (s : PlayerState) : Option PlayerState :=
  let s1 := { s with screen_scale := min 4 (s.screen_scale + 1) }
  let s2 := change_screen_size cfg s1
  let p := get_frame cfg s2 s2.current_frame
  draw_frame p.1 p.2

/-- VideoPlayer.screen_scale_down: screen_scale := max(-4,
screen_scale-1), re-derive the screen size, re-read and draw the current
frame. -/
def screen_scale_down (cfg : VideoConfig) (s : PlayerState) : Option PlayerState :=
  let s1 := { s with screen_scale := max (-4) (s.screen_scale - 1) }
  let s2 := change_screen_size cfg s1
  let p := get_frame cfg s2 s2.current_frame
  draw_frame p.1 p.2

/-- The overscanned fullscreen size monitor_size +
IntVector2(monitor_size[0] // 64, 0). -/
def overscanSize (cfg : VideoConfig) : IntVector2 :=
  cfg.monitor_size + IntVector2.mk (Int.fdiv cfg.monitor_size.x 64) 0

/-- VideoPlayer.toggle_fullscreen: when fullscreen, exit it through
change_screen_size; otherwise set is_fullscreen and the overscanned
monitor size.  Either way re-read and draw the current frame. -/
def toggle_fullscreen (cfg : VideoConfig) (s : PlayerState) : Option PlayerState :=
  let s1 :=
    if s.is_fullscreen then change_screen_size cfg s
    else { s with is_fullscreen := true, displayed_vid_size := overscanSize cfg }
  let p := get_frame cfg s1 s1.current_frame
  draw_frame p.1 p.2

/-- VideoPlayer.toggle_flip_image_horizontally. -/
def toggle_flip_image_horizontally (cfg : VideoConfig) (s : PlayerState) : Option PlayerState :=
  let s1 := { s with flip_horizontally := !s.flip_horizontally }
  let p := get_frame cfg s1 s1.current_frame
  draw_frame p.1 p.2

/-- Modelled from the spec: the toggle-zoom view action has no code under
src/; per the spec it mutates a PlaybackState view field (isZoomed) and
triggers a re-render of the current frame, never advancing the playback
position. -/
def toggle_zoom (s : PlayerState) : PlayerState :=
  { s with is_zoomed := !s.is_zoomed }

/-- The named actions of the InputManager binding table, plus the spec's
toggle-zoom action. -/
inductive Action where
  | quit_video
  | skip_backward
  | skip_forward
  | screen_scale_up
  | screen_scale_down
  | toggle_fullscreen
  | toggle_debug
  | toggle_pause
  | skip_one_frame_backward
  | skip_one_frame_forward
  | toggle_flip_image_horizontally
  | toggle_zoom
deriving DecidableEq, Repr

/-- One row of InputManager.inputs. -/
structure Binding where
  code : ℤ
  key : String
  descr : String
  act : Action
deriving DecidableEq, Repr

/-- InputManager.inputs, the static binding table. -/
def inputs : List Binding :=
  [ ⟨113, "Q", "Quit video player", .quit_video⟩,
    ⟨97, "A", "Skip backward", .skip_backward⟩,
    ⟨100, "D", "Skip forward", .skip_forward⟩,
    ⟨114, "R", "Scale Screen-size up", .screen_scale_up⟩,
    ⟨116, "T", "Scale Screen-size down", .screen_scale_down⟩,
    ⟨102, "F", "Enter and Exit Fullscreen", .toggle_fullscreen⟩,
    ⟨104, "H", "Hide or show Debug Info", .toggle_debug⟩,
    ⟨32, "SPACE", "Pause video", .toggle_pause⟩,
    ⟨65, "LSHIFT + A", "Skip one frame backward", .skip_one_frame_backward⟩,
    ⟨68, "LSHIFT + D", "Skip one frame forward", .skip_one_frame_forward⟩,
    ⟨109, "M", "Flip image horizontally", .toggle_flip_image_horizontally⟩ ]

/-- The linear first-match scan of InputManager.checkInputs. -/
def findAction : List Binding → ℤ → Option Action
  | [], _ => none
  | b :: rest, k => if b.code = k then some b.act else findAction rest k

/-- InputManager.checkInputs: -1 means no key was pressed; otherwise scan
the table, first exact match wins, no match means no action. -/
def checkInputs (input_key : ℤ) : Option Action :=
  if input_key = -1 then none else findAction inputs input_key

/-- VideoPlayer.input_action composed with the bound-method dispatch: no
action is a no-op; an action runs the corresponding VideoPlayer method.
Actions whose draw_frame would raise on a None frame yield none. -/
def applyAction (cfg : VideoConfig) (a : Option Action) (s : PlayerState) : Option PlayerState :=
  match a with
  | none => some s
  | some .quit_video => some (quit_video s)
  | some .skip_backward => skip_backward cfg s
  | some .skip_forward => skip_forward cfg s
  | some .screen_scale_up => screen_scale_up cfg s
  | some .screen_scale_down => screen_scale_down cfg s
  | some .toggle_fullscreen => toggle_fullscreen cfg s
  | some .toggle_debug => toggle_debug cfg s
  | some .toggle_pause => some (toggle_pause s)
  | some .skip_one_frame_backward => skip_one_frame_backward cfg s
  | some .skip_one_frame_forward => skip_one_frame_forward cfg s
  | some .toggle_flip_image_horizontally => toggle_flip_image_horizontally cfg s
  | some .toggle_zoom => some (toggle_zoom s)

/-- A finite sequence of dispatched actions, stopping at a crash. -/
def applyActions (cfg : VideoConfig) : List (Option Action) → PlayerState → Option PlayerState
  | [], s => some s
  | a :: rest, s =>
    match applyAction cfg a s with
    | none => none
    | some s1 => applyActions cfg rest s1

/-- The view actions listed by the spec: scale up, scale down, toggle
fullscreen, toggle debug overlay, toggle flip, toggle zoom. -/
def viewActions : List Action :=
  [ .screen_scale_up, .screen_scale_down, .toggle_fullscreen,
    .toggle_debug, .toggle_flip_image_horizontally, .toggle_zoom ]

/-- The states VideoPlayer.update can put the player in, mirroring the
loop: the initial state; a dispatch during the inner pause loop; a
sequential read while running and unpaused; and, when such a read
succeeds, the dispatch of the key collected after drawing the frame. -/
inductive Reaches (cfg : VideoConfig) : PlayerState → Prop
  | init : Reaches cfg (initialState cfg)
  | pauseStep {s s' : PlayerState} (a : Option Action) :
      Reaches cfg s → s.is_paused = true →
      applyAction cfg a s = some s' → Reaches cfg s'
  | runRead {s : PlayerState} :
      Reaches cfg s → s.is_running = true → s.is_paused = false →
      Reaches cfg (get_frame cfg s (-1)).2
  | runDispatch {s s' : PlayerState} (a : Option Action) :
      Reaches cfg s → s.is_running = true → s.is_paused = false →
      (get_frame cfg s (-1)).1 = true →
      applyAction cfg a (get_frame cfg s (-1)).2 = some s' → Reaches cfg s'

/-- The inductive invariant of the reachable states: either the tracked
frame index agrees with the decoder position and lies in
[0, amount_of_frames], or the terminal failed read has happened (index
one past the end, loop flags cleared); and in fullscreen the displayed
size is the overscanned monitor size. -/
def GoodState (cfg : VideoConfig) (s : PlayerState) : Prop :=
  ((s.pos = s.current_frame ∧ 0 ≤ s.current_frame ∧ s.current_frame ≤ cfg.amount_of_frames)
    ∨ (s.current_frame = cfg.amount_of_frames + 1 ∧ s.pos = cfg.amount_of_frames
        ∧ s.is_running = false ∧ s.is_paused = false))
  ∧ (s.is_fullscreen = true → s.displayed_vid_size = overscanSize cfg)

/-- Python's int // float: rational floor division. -/
def floordiv (n : ℤ) (q : ℚ) : ℤ :=
  ⌊(n : ℚ) / q⌋

/-- Zero-padding to two digits, as time.strftime produces. -/
def pad2 (n : ℤ) : String :=
  if n < 10 then "0" ++ toString n else toString n

/-- TextManager.convertTime: time.strftime("%M:%S", time.gmtime(seconds))
for nonnegative seconds: minutes within the hour, then seconds within the
minute, both zero-padded to two digits. -/
def convertTime (seconds : ℤ) : String :=
  pad2 (Int.emod (Int.ediv seconds 60) 60) ++ ":" ++ pad2 (Int.emod seconds 60)

/-- TextManager.maxTime = convertTime(amount_of_frames // realFPS). -/
def maxTime (cfg : VideoConfig) : String :=
  convertTime (floordiv cfg.amount_of_frames cfg.realFPS)

/-- TextManager.updateTexts: elapsed/total time, the displayed
resolution, and the flip flag. -/
def updateTexts (cfg : VideoConfig) (s : PlayerState) : List String :=
  [ convertTime (floordiv s.current_frame cfg.realFPS) ++ "/" ++ maxTime cfg,
    "R: " ++ IntVector2.str s.displayed_vid_size,
    "F: " ++ (if s.flip_horizontally then "H" else "-") ]

/-- Modelled from the spec: the screen-size derivation exactly as the
specification words it, with each component truncated to an integer:
s = 0 gives V; s > 0 gives V + 0.25*s*V; s < 0 gives
V * (0.85 * (-1/s)). -/
def spec_display_size (sc : ℤ) (v : IntVector2) : IntVector2 :=
  if sc = 0 then v
  else if 0 < sc then
    ⟨ratTrunc ((v.x : ℚ) + (0.25 : ℚ) * (sc : ℚ) * (v.x : ℚ)),
      ratTrunc ((v.y : ℚ) + (0.25 : ℚ) * (sc : ℚ) * (v.y : ℚ))⟩
  else
    ⟨ratTrunc ((v.x : ℚ) * ((0.85 : ℚ) * (-1 / (sc : ℚ)))),
      ratTrunc ((v.y : ℚ) * ((0.85 : ℚ) * (-1 / (sc : ℚ))))⟩

/-- A concrete 100-frame, 25 fps configuration used for witnesses: the
scenario of the specification. -/
def cfg100 : VideoConfig :=
  { frames_per_second := 25
    amount_of_frames := 100
    vid_size := ⟨640, 360⟩
    monitor_size := ⟨1920, 1080⟩
    realFPS := 25 }

/-- A one-frame source, exhibiting the terminal failed read. -/
def cfg1 : VideoConfig :=
  { frames_per_second := 25
    amount_of_frames := 1
    vid_size := ⟨640, 360⟩
    monitor_size := ⟨1920, 1080⟩
    realFPS := 25 }

/-- The reachable state right after toggling fullscreen from the first
frame of cfg100: displayed size is the overscanned monitor size. -/
def fullscreenState : PlayerState :=
  { initialState cfg100 with
      current_frame := 1
      pos := 1
      is_fullscreen := true
      displayed_vid_size := ⟨1950, 1080⟩ }

/-! Basic lemmas about the geometry and the frame reader. -/

@[simp] lemma IntVector2.add_x (v w : IntVector2) : (v + w).x = v.x + w.x := rfl

@[simp] lemma IntVector2.add_y (v w : IntVector2) : (v + w).y = v.y + w.y := rfl

lemma ratTrunc_of_nonneg {q : ℚ} (h : 0 ≤ q) : ratTrunc q = ⌊q⌋ := by
  simp [ratTrunc, h]

lemma ratTrunc_int_add (n : ℤ) (q : ℚ) (hn : 0 ≤ n) (hq : 0 ≤ q) :
    ratTrunc ((n : ℚ) + q) = n + ratTrunc q := by
  have hn' : (0 : ℚ) ≤ (n : ℚ) := by exact_mod_cast hn
  have h1 : (0 : ℚ) ≤ (n : ℚ) + q := by linarith
  rw [ratTrunc_of_nonneg h1, ratTrunc_of_nonneg hq, Int.floor_int_add]

lemma draw_frame_some {ret : Bool} {s s' : PlayerState}
    (h : draw_frame ret s = some s') : ret = true ∧ s' = s := by
  cases ret <;> simp [draw_frame] at h <;> simp [h]

lemma get_frame_clamped (cfg : VideoConfig) (s : PlayerState) (t : ℤ)
    (ht : t ≠ -1) (ha : 0 ≤ cfg.amount_of_frames) :
    get_frame cfg s t =
      (true, { s with pos := min (max 0 t) cfg.amount_of_frames,
                      current_frame := min (max 0 t) cfg.amount_of_frames }) := by
  have hlt : min (max 0 t) cfg.amount_of_frames - 1 < cfg.amount_of_frames := by omega
  have hf : min (max 0 t) cfg.amount_of_frames - 1 + 1
      = min (max 0 t) cfg.amount_of_frames := by omega
  simp [get_frame, ht, hlt, hf]

lemma get_frame_at (cfg : VideoConfig) (s : PlayerState) (t : ℤ)
    (h0 : 0 ≤ t) (h1 : t ≤ cfg.amount_of_frames) :
    get_frame cfg s t = (true, { s with pos := t, current_frame := t }) := by
  have ht : t ≠ -1 := by omega
  have hm : min (max 0 t) cfg.amount_of_frames = t := by omega
  rw [get_frame_clamped cfg s t ht (le_trans h0 h1), hm]

lemma get_frame_seq_lt (cfg : VideoConfig) (s : PlayerState)
    (h : s.pos < cfg.amount_of_frames) :
    get_frame cfg s (-1) =
      (true, { s with pos := s.pos + 1, current_frame := s.current_frame + 1 }) := by
  simp [get_frame, h]

lemma get_frame_seq_ge (cfg : VideoConfig) (s : PlayerState)
    (h : ¬s.pos < cfg.amount_of_frames) :
    get_frame cfg s (-1) =
      (false, { s with current_frame := s.current_frame + 1, is_running := false }) := by
  simp [get_frame, h]

lemma view_render (cfg : VideoConfig) (s : PlayerState)
    (h0 : 0 ≤ s.current_frame) (h1 : s.current_frame ≤ cfg.amount_of_frames) :
    draw_frame (get_frame cfg s s.current_frame).1 (get_frame cfg s s.current_frame).2
      = some { s with pos := s.current_frame } := by
  rw [get_frame_at cfg s s.current_frame h0 h1]
  rfl

lemma quit_video_fields (s : PlayerState) :
    (quit_video s).current_frame = s.current_frame ∧ (quit_video s).pos = s.pos
    ∧ (quit_video s).is_running = false ∧ (quit_video s).is_paused = false
    ∧ (quit_video s).is_fullscreen = s.is_fullscreen
    ∧ (quit_video s).displayed_vid_size = s.displayed_vid_size
    ∧ (quit_video s).screen_scale = s.screen_scale := by
  simp only [quit_video]
  split <;> simp

lemma change_screen_size_fields (cfg : VideoConfig) (s : PlayerState) :
    (change_screen_size cfg s).current_frame = s.current_frame
    ∧ (change_screen_size cfg s).pos = s.pos
    ∧ (change_screen_size cfg s).is_running = s.is_running
    ∧ (change_screen_size cfg s).is_paused = s.is_paused
    ∧ (change_screen_size cfg s).is_fullscreen = false
    ∧ (change_screen_size cfg s).screen_scale = s.screen_scale := by
  refine ⟨rfl, rfl, rfl, rfl, rfl, rfl⟩

lemma view_render_eq (cfg : VideoConfig) (s : PlayerState)
    (h0 : 0 ≤ s.current_frame) (h1 : s.current_frame ≤ cfg.amount_of_frames) :
    toggle_debug cfg s
      = some { s with show_debug_text := !s.show_debug_text, pos := s.current_frame }
    ∧ toggle_flip_image_horizontally cfg s
      = some { s with flip_horizontally := !s.flip_horizontally, pos := s.current_frame }
    ∧ screen_scale_up cfg s
      = some { change_screen_size cfg { s with screen_scale := min 4 (s.screen_scale + 1) } with
               pos := s.current_frame }
    ∧ screen_scale_down cfg s
      = some { change_screen_size cfg { s with screen_scale := max (-4) (s.screen_scale - 1) } with
               pos := s.current_frame } := by
  refine ⟨?_, ?_, ?_, ?_⟩
  · exact view_render cfg { s with show_debug_text := !s.show_debug_text } h0 h1
  · exact view_render cfg { s with flip_horizontally := !s.flip_horizontally } h0 h1
  · exact view_render cfg
      (change_screen_size cfg { s with screen_scale := min 4 (s.screen_scale + 1) }) h0 h1
  · exact view_render cfg
      (change_screen_size cfg { s with screen_scale := max (-4) (s.screen_scale - 1) }) h0 h1

lemma toggle_fullscreen_eq_off (cfg : VideoConfig) (s : PlayerState)
    (hf : s.is_fullscreen = false)
    (h0 : 0 ≤ s.current_frame) (h1 : s.current_frame ≤ cfg.amount_of_frames) :
    toggle_fullscreen cfg s
      = some { s with
               is_fullscreen := true
               displayed_vid_size := overscanSize cfg
               pos := s.current_frame } := by
  unfold toggle_fullscreen
  rw [if_neg (by simp [hf])]
  exact view_render cfg
    { s with is_fullscreen := true, displayed_vid_size := overscanSize cfg } h0 h1

lemma toggle_fullscreen_eq_on (cfg : VideoConfig) (s : PlayerState)
    (hf : s.is_fullscreen = true)
    (h0 : 0 ≤ s.current_frame) (h1 : s.current_frame ≤ cfg.amount_of_frames) :
    toggle_fullscreen cfg s = some { change_screen_size cfg s with pos := s.current_frame } := by
  unfold toggle_fullscreen
  rw [if_pos (by simp [hf])]
  exact view_render cfg (change_screen_size cfg s) h0 h1

lemma seek_action_eq (cfg : VideoConfig) (s : PlayerState) (t : ℤ)
    (ht : t ≠ -1) (ha : 0 ≤ cfg.amount_of_frames) :
    draw_frame (get_frame cfg s t).1 (get_frame cfg s t).2
      = some { s with pos := min (max 0 t) cfg.amount_of_frames,
                      current_frame := min (max 0 t) cfg.amount_of_frames } := by
  rw [get_frame_clamped cfg s t ht ha]
  rfl

lemma seek_action_sentinel_lt (cfg : VideoConfig) (s : PlayerState)
    (h : s.pos < cfg.amount_of_frames) :
    draw_frame (get_frame cfg s (-1)).1 (get_frame cfg s (-1)).2
      = some { s with pos := s.pos + 1, current_frame := s.current_frame + 1 } := by
  rw [get_frame_seq_lt cfg s h]
  rfl

lemma seek_action_sentinel_ge (cfg : VideoConfig) (s : PlayerState)
    (h : ¬s.pos < cfg.amount_of_frames) :
    draw_frame (get_frame cfg s (-1)).1 (get_frame cfg s (-1)).2 = none := by
  rw [get_frame_seq_ge cfg s h]
  rfl

lemma applyAction_good (cfg : VideoConfig) (a : Option Action) {s s' : PlayerState}
    (hpos : s.pos = s.current_frame) (h0 : 0 ≤ s.current_frame)
    (h1 : s.current_frame ≤ cfg.amount_of_frames)
    (hfs : s.is_fullscreen = true → s.displayed_vid_size = overscanSize cfg)
    (h : applyAction cfg a s = some s') :
    (s'.pos = s'.current_frame ∧ 0 ≤ s'.current_frame
      ∧ s'.current_frame ≤ cfg.amount_of_frames)
    ∧ (s'.is_fullscreen = true → s'.displayed_vid_size = overscanSize cfg) := by
  have ha : 0 ≤ cfg.amount_of_frames := le_trans h0 h1
  have hview := view_render_eq cfg s h0 h1
  match a with
  | none =>
    injection h with h
    subst h
    exact ⟨⟨hpos, h0, h1⟩, hfs⟩
  | some .quit_video =>
    simp only [applyAction] at h
    injection h with h
    subst h
    obtain ⟨e1, e2, _, _, e5, e6, _⟩ := quit_video_fields s
    rw [e1, e2, e5, e6]
    exact ⟨⟨hpos, h0, h1⟩, hfs⟩
  | some .toggle_pause =>
    simp only [applyAction] at h
    injection h with h
    subst h
    exact ⟨⟨hpos, h0, h1⟩, hfs⟩
  | some .toggle_zoom =>
    simp only [applyAction] at h
    injection h with h
    subst h
    exact ⟨⟨hpos, h0, h1⟩, hfs⟩
  | some .skip_forward =>
    simp only [applyAction, skip_forward] at h
    by_cases ht : s.current_frame + cfg.frames_per_second * skipping_time = -1
    · rw [ht] at h
      by_cases hlt : s.pos < cfg.amount_of_frames
      · rw [seek_action_sentinel_lt cfg s hlt] at h
        injection h with h
        subst h
        refine ⟨⟨by simp [hpos], by simp <;> omega, by simp <;> omega⟩, by simpa using hfs⟩
      · rw [seek_action_sentinel_ge cfg s hlt] at h
        cases h
    · rw [seek_action_eq cfg s _ ht ha] at h
      injection h with h
      subst h
      refine ⟨⟨rfl, by simp <;> omega, by simp <;> omega⟩, by simpa using hfs⟩
  | some .skip_backward =>
    simp only [applyAction, skip_backward] at h
    by_cases ht : s.current_frame - cfg.frames_per_second * skipping_time = -1
    · rw [ht] at h
      by_cases hlt : s.pos < cfg.amount_of_frames
      · rw [seek_action_sentinel_lt cfg s hlt] at h
        injection h with h
        subst h
        refine ⟨⟨by simp [hpos], by simp <;> omega, by simp <;> omega⟩, by simpa using hfs⟩
      · rw [seek_action_sentinel_ge cfg s hlt] at h
        cases h
    · rw [seek_action_eq cfg s _ ht ha] at h
      injection h with h
      subst h
      refine ⟨⟨rfl, by simp <;> omega, by simp <;> omega⟩, by simpa using hfs⟩
  | some .skip_one_frame_forward =>
    simp only [applyAction, skip_one_frame_forward] at h
    have ht : s.current_frame + 1 ≠ -1 := by omega
    rw [seek_action_eq cfg s _ ht ha] at h
    injection h with h
    subst h
    refine ⟨⟨rfl, by simp <;> omega, by simp <;> omega⟩, by simpa using hfs⟩
  | some .skip_one_frame_backward =>
    simp only [applyAction, skip_one_frame_backward] at h
    by_cases ht : s.current_frame - 1 = -1
    · rw [ht] at h
      by_cases hlt : s.pos < cfg.amount_of_frames
      · rw [seek_action_sentinel_lt cfg s hlt] at h
        injection h with h
        subst h
        refine ⟨⟨by simp [hpos], by simp <;> omega, by simp <;> omega⟩, by simpa using hfs⟩
      · rw [seek_action_sentinel_ge cfg s hlt] at h
        cases h
    · rw [seek_action_eq cfg s _ ht ha] at h
      injection h with h
      subst h
      refine ⟨⟨rfl, by simp <;> omega, by simp <;> omega⟩, by simpa using hfs⟩
  | some .toggle_debug =>
    simp only [applyAction] at h
    rw [hview.1] at h
    injection h with h
    subst h
    exact ⟨⟨rfl, h0, h1⟩, by simpa using hfs⟩
  | some .toggle_flip_image_horizontally =>
    simp only [applyAction] at h
    rw [hview.2.1] at h
    injection h with h
    subst h
    exact ⟨⟨rfl, h0, h1⟩, by simpa using hfs⟩
  | some .screen_scale_up =>
    simp only [applyAction] at h
    rw [hview.2.2.1] at h
    injection h with h
    subst h
    refine ⟨⟨rfl, h0, h1⟩, ?_⟩
    have := (change_screen_size_fields cfg
      { s with screen_scale := min 4 (s.screen_scale + 1) }).2.2.2.2.1
    simp [this]
  | some .screen_scale_down =>
    simp only [applyAction] at h
    rw [hview.2.2.2] at h
    injection h with h
    subst h
    refine ⟨⟨rfl, h0, h1⟩, ?_⟩
    have := (change_screen_size_fields cfg
      { s with screen_scale := max (-4) (s.screen_scale - 1) }).2.2.2.2.1
    simp [this]
  | some .toggle_fullscreen =>
    simp only [applyAction] at h
    by_cases hf : s.is_fullscreen = true
    · rw [toggle_fullscreen_eq_on cfg s hf h0 h1] at h
      injection h with h
      subst h
      refine ⟨⟨rfl, h0, h1⟩, ?_⟩
      have := (change_screen_size_fields cfg s).2.2.2.2.1
      simp [this]
    · rw [toggle_fullscreen_eq_off cfg s (by simpa using hf) h0 h1] at h
      injection h with h
      subst h
      exact ⟨⟨rfl, h0, h1⟩, fun _ => rfl⟩

lemma reaches_good (cfg : VideoConfig) (ha : 0 ≤ cfg.amount_of_frames)
    {s : PlayerState} (h : Reaches cfg s) : GoodState cfg s := by
  induction h with
  | init =>
    refine ⟨Or.inl ⟨rfl, le_refl 0, ha⟩, ?_⟩
    intro hf
    simp [initialState] at hf
  | @pauseStep s s' a hrs hp happ ih =>
    rcases ih with ⟨hd, hfs⟩
    rcases hd with ⟨hpos, h0, h1⟩ | ⟨hc, hpo, hrun, hpau⟩
    · obtain ⟨g1, g2⟩ := applyAction_good cfg a hpos h0 h1 hfs happ
      exact ⟨Or.inl g1, g2⟩
    · rw [hp] at hpau
      cases hpau
  | @runRead s hrs hrun hpau ih =>
    rcases ih with ⟨hd, hfs⟩
    rcases hd with ⟨hpos, h0, h1⟩ | ⟨hc, hpo, hrf, hpf⟩
    · by_cases hlt : s.pos < cfg.amount_of_frames
      · rw [get_frame_seq_lt cfg s hlt]
        refine ⟨Or.inl ⟨by simp [hpos], by simp <;> omega, by simp <;> omega⟩, by simpa using hfs⟩
      · rw [get_frame_seq_ge cfg s hlt]
        refine ⟨Or.inr ⟨by simp <;> omega, by simp <;> omega, by simp, by simpa using hpau⟩,
          by simpa using hfs⟩
    · rw [hrun] at hrf
      cases hrf
  | @runDispatch s s' a hrs hrun hpau hret happ ih =>
    rcases ih with ⟨hd, hfs⟩
    rcases hd with ⟨hpos, h0, h1⟩ | ⟨hc, hpo, hrf, hpf⟩
    · have hlt : s.pos < cfg.amount_of_frames := by
        by_contra hge
        rw [get_frame_seq_ge cfg s hge] at hret
        simp at hret
      rw [get_frame_seq_lt cfg s hlt] at happ
      obtain ⟨g1, g2⟩ := applyAction_good cfg a (by simp [hpos]) (by simp <;> omega)
        (by simp <;> omega) (by simpa using hfs) happ
      exact ⟨Or.inl g1, g2⟩
    · rw [hrun] at hrf
      cases hrf

lemma get_frame_screen_scale (cfg : VideoConfig) (s : PlayerState) (t : ℤ) :
    (get_frame cfg s t).2.screen_scale = s.screen_scale := by
  simp only [get_frame]
  split <;> rfl

lemma applyAction_screen_scale (cfg : VideoConfig) (a : Option Action) {s s' : PlayerState}
    (h : applyAction cfg a s = some s') :
    (a = some .screen_scale_up → s'.screen_scale = min 4 (s.screen_scale + 1))
    ∧ (a = some .screen_scale_down → s'.screen_scale = max (-4) (s.screen_scale - 1))
    ∧ (a ≠ some .screen_scale_up → a ≠ some .screen_scale_down →
        s'.screen_scale = s.screen_scale) := by
  match a with
  | none =>
    injection h with h
    subst h
    exact ⟨by simp, by simp, fun _ _ => rfl⟩
  | some .quit_video =>
    simp only [applyAction] at h
    injection h with h
    subst h
    exact ⟨by simp, by simp, fun _ _ => (quit_video_fields s).2.2.2.2.2.2⟩
  | some .toggle_pause =>
    simp only [applyAction] at h
    injection h with h
    subst h
    exact ⟨by simp, by simp, fun _ _ => rfl⟩
  | some .toggle_zoom =>
    simp only [applyAction] at h
    injection h with h
    subst h
    exact ⟨by simp, by simp, fun _ _ => rfl⟩
  | some .skip_forward =>
    simp only [applyAction, skip_forward] at h
    obtain ⟨-, rfl⟩ := draw_frame_some h
    exact ⟨by simp, by simp, fun _ _ => get_frame_screen_scale cfg s _⟩
  | some .skip_backward =>
    simp only [applyAction, skip_backward] at h
    obtain ⟨-, rfl⟩ := draw_frame_some h
    exact ⟨by simp, by simp, fun _ _ => get_frame_screen_scale cfg s _⟩
  | some .skip_one_frame_forward =>
    simp only [applyAction, skip_one_frame_forward] at h
    obtain ⟨-, rfl⟩ := draw_frame_some h
    exact ⟨by simp, by simp, fun _ _ => get_frame_screen_scale cfg s _⟩
  | some .skip_one_frame_backward =>
    simp only [applyAction, skip_one_frame_backward] at h
    obtain ⟨-, rfl⟩ := draw_frame_some h
    exact ⟨by simp, by simp, fun _ _ => get_frame_screen_scale cfg s _⟩
  | some .toggle_debug =>
    simp only [applyAction, toggle_debug] at h
    obtain ⟨-, rfl⟩ := draw_frame_some h
    exact ⟨by simp, by simp, fun _ _ => get_frame_screen_scale cfg _ _⟩
  | some .toggle_flip_image_horizontally =>
    simp only [applyAction, toggle_flip_image_horizontally] at h
    obtain ⟨-, rfl⟩ := draw_frame_some h
    exact ⟨by simp, by simp, fun _ _ => get_frame_screen_scale cfg _ _⟩
  | some .toggle_fullscreen =>
    simp only [applyAction, toggle_fullscreen] at h
    obtain ⟨-, rfl⟩ := draw_frame_some h
    refine ⟨by simp, by simp, fun _ _ => ?_⟩
    rw [get_frame_screen_scale cfg _ _]
    split
    · exact (change_screen_size_fields cfg s).2.2.2.2.2
    · rfl
  | some .screen_scale_up =>
    simp only [applyAction, screen_scale_up] at h
    obtain ⟨-, rfl⟩ := draw_frame_some h
    refine ⟨fun _ => ?_, by simp, by simp⟩
    rw [get_frame_screen_scale cfg _ _,
      (change_screen_size_fields cfg { s with screen_scale := min 4 (s.screen_scale + 1) }).2.2.2.2.2]
  | some .screen_scale_down =>
    simp only [applyAction, screen_scale_down] at h
    obtain ⟨-, rfl⟩ := draw_frame_some h
    refine ⟨by simp, fun _ => ?_, by simp⟩
    rw [get_frame_screen_scale cfg _ _,
      (change_screen_size_fields cfg { s with screen_scale := max (-4) (s.screen_scale - 1) }).2.2.2.2.2]

lemma applyAction_scale_bounds (cfg : VideoConfig) (a : Option Action) {s s' : PlayerState}
    (hl : -4 ≤ s.screen_scale) (hr : s.screen_scale ≤ 4)
    (h : applyAction cfg a s = some s') :
    -4 ≤ s'.screen_scale ∧ s'.screen_scale ≤ 4 := by
  obtain ⟨hup, hdown, hother⟩ := applyAction_screen_scale cfg a h
  by_cases c1 : a = some .screen_scale_up
  · rw [hup c1]
    constructor <;> omega
  · by_cases c2 : a = some .screen_scale_down
    · rw [hdown c2]
      constructor <;> omega
    · rw [hother c1 c2]
      exact ⟨hl, hr⟩

lemma applyActions_scale_bounds (cfg : VideoConfig) (acts : List (Option Action)) :
    ∀ {s s' : PlayerState}, -4 ≤ s.screen_scale → s.screen_scale ≤ 4 →
      applyActions cfg acts s = some s' →
      -4 ≤ s'.screen_scale ∧ s'.screen_scale ≤ 4 := by
  induction acts with
  | nil =>
    intro s s' hl hr h
    injection h with h
    subst h
    exact ⟨hl, hr⟩
  | cons a rest ih =>
    intro s s' hl hr h
    simp only [applyActions] at h
    cases hap : applyAction cfg a s with
    | none =>
      rw [hap] at h
      cases h
    | some s1 =>
      rw [hap] at h
      obtain ⟨hl1, hr1⟩ := applyAction_scale_bounds cfg a hl hr hap
      exact ih hl1 hr1 h

lemma findAction_eq_find (l : List Binding) (k : ℤ) :
    findAction l k = (l.find? (fun b => b.code == k)).map Binding.act := by
  induction l with
  | nil => rfl
  | cons b rest ih =>
    by_cases h : b.code = k
    · simp [findAction, List.find?_cons, h]
    · simp [findAction, List.find?_cons, h, ih]

/-- C10: the results of IntVector2 addition, integer scaling and
fractional scaling always have integer components, so the validating
constructor accepts them: its type-error branch is unreachable from the
arithmetic of the class. -/
theorem intvector2_closed_under_arithmetic (v w : IntVector2) (n : ℤ) (q : ℚ) :
    IntVector2.add_checked v w = Except.ok (IntVector2.mk (v.x + w.x) (v.y + w.y))
    ∧ IntVector2.mul_int_checked v n = Except.ok (IntVector2.mk (v.x * n) (v.y * n))
    ∧ IntVector2.mul_float_checked v q
      = Except.ok (IntVector2.mk (ratTrunc ((v.x : ℚ) * q)) (ratTrunc ((v.y : ℚ) * q))) := by
  exact ⟨rfl, rfl, rfl⟩

/-- C8: checkInputs maps the no-key sentinel -1 to no action, maps any
key bound in the static table to the action of the first matching entry,
and maps every unbound key to no action (never an error). -/
theorem checkInputs_resolution :
    checkInputs (-1) = none
    ∧ (∀ k : ℤ, (∀ b ∈ inputs, b.code ≠ k) → checkInputs k = none)
    ∧ (∀ (k : ℤ) (b : Binding), inputs.find? (fun e => e.code == k) = some b →
        checkInputs k = some b.act) := by
  refine ⟨rfl, ?_, ?_⟩
  · intro k hk
    by_cases h1 : k = -1
    · simp [checkInputs, h1]
    · have hnone : inputs.find? (fun b => b.code == k) = none := by
        rw [List.find?_eq_none]
        intro b hb
        simpa using hk b hb
      simp [checkInputs, h1, findAction_eq_find, hnone]
  · intro k b hb
    have hmem : b ∈ inputs := List.mem_of_find?_eq_some hb
    have hcode : b.code = k := by
      have := List.find?_some hb
      simpa using this
    have h1 : k ≠ -1 := by
      rw [← hcode]
      fin_cases hmem <;> decide
    simp [checkInputs, h1, findAction_eq_find, hb]

/-- C4 counterexample: the source computes the frame interval as
int(428 / fps), not round(1000 / fps): at 25 fps the code yields 17
milliseconds while the claimed formula yields 40; and at 500 fps the code
yields 0 (so construction fails) while the claimed formula yields 2 (so
by the claim construction would succeed). -/
theorem frame_interval_cex :
    milseconds_per_frame 25 = 17 ∧ spec_frame_interval 25 = 40
    ∧ milseconds_per_frame 500 = 0 ∧ spec_frame_interval 500 = 2
    ∧ (17 : ℤ) ≠ 40 := by
  refine ⟨?_, ?_, ?_, ?_, by decide⟩
  · norm_num [milseconds_per_frame, ratTrunc]
  · norm_num [spec_frame_interval]
  · norm_num [milseconds_per_frame, ratTrunc]
  · norm_num [spec_frame_interval]

/-- C4 amended: the frame interval is int(428 / fps) (truncating float
division), it is never negative for a positive fps, and the construction
failure milseconds_per_frame < 1 happens exactly when fps exceeds 428. -/
theorem frame_interval_fail_iff (fps : ℤ) (h : 1 ≤ fps) :
    (milseconds_per_frame fps < 1 ↔ 429 ≤ fps) ∧ 0 ≤ milseconds_per_frame fps := by
  have hq : (0 : ℚ) < (fps : ℚ) := by exact_mod_cast h
  have hnn : (0 : ℚ) ≤ (428 : ℚ) / (fps : ℚ) := by positivity
  unfold milseconds_per_frame
  rw [ratTrunc_of_nonneg hnn]
  constructor
  · rw [show (1 : ℤ) = ((1 : ℤ)) from rfl, Int.floor_lt]
    rw [show (((1 : ℤ)) : ℚ) = 1 by norm_num]
    rw [div_lt_one hq]
    constructor
    · intro hlt
      have : (428 : ℤ) < fps := by exact_mod_cast hlt
      omega
    · intro hge
      have : (428 : ℚ) < (fps : ℚ) := by exact_mod_cast (by omega : (428 : ℤ) < fps)
      exact this
  · rw [Int.le_floor]
    simpa using hnn

/-- C4 amended witness at fps = 500. -/
theorem frame_interval_fail_iff_witness :
    (milseconds_per_frame 500 < 1 ↔ 429 ≤ (500 : ℤ)) ∧ 0 ≤ milseconds_per_frame 500 :=
  frame_interval_fail_iff 500 (by decide)

/-- C3: change_screen_size clears is_fullscreen and derives the
displayed size exactly as the spec formula states: the native size V at
scale 0, V + 0.25*s*V truncated componentwise for s > 0, and
V * (0.85 * (-1/s)) truncated componentwise for s < 0. -/
theorem change_screen_size_matches_spec (cfg : VideoConfig) (s : PlayerState)
    (hl : -4 ≤ s.screen_scale) (hr : s.screen_scale ≤ 4)
    (hx : 0 ≤ cfg.vid_size.x) (hy : 0 ≤ cfg.vid_size.y) :
    (change_screen_size cfg s).is_fullscreen = false
    ∧ (change_screen_size cfg s).displayed_vid_size
      = spec_display_size s.screen_scale cfg.vid_size := by
  refine ⟨rfl, ?_⟩
  show (if s.screen_scale = 0 then cfg.vid_size
      else if 0 < s.screen_scale then
        cfg.vid_size + IntVector2.mulFloat cfg.vid_size ((0.25 : ℚ) * (s.screen_scale : ℚ))
      else IntVector2.mulFloat cfg.vid_size ((0.85 : ℚ) * (-1) / (s.screen_scale : ℚ)))
    = spec_display_size s.screen_scale cfg.vid_size
  unfold spec_display_size
  by_cases h0 : s.screen_scale = 0
  · simp [h0]
  · by_cases hp : 0 < s.screen_scale
    · have hsq : (0 : ℚ) ≤ (s.screen_scale : ℚ) := by exact_mod_cast hp.le
      have hxq : (0 : ℚ) ≤ (cfg.vid_size.x : ℚ) := by exact_mod_cast hx
      have hyq : (0 : ℚ) ≤ (cfg.vid_size.y : ℚ) := by exact_mod_cast hy
      simp only [if_neg h0, if_pos hp]
      apply IntVector2.ext
      · show cfg.vid_size.x + ratTrunc ((cfg.vid_size.x : ℚ) * ((0.25 : ℚ) * (s.screen_scale : ℚ)))
          = ratTrunc ((cfg.vid_size.x : ℚ) + (0.25 : ℚ) * (s.screen_scale : ℚ) * (cfg.vid_size.x : ℚ))
        rw [ratTrunc_int_add cfg.vid_size.x _ hx (by positivity)]
        ring_nf
      · show cfg.vid_size.y + ratTrunc ((cfg.vid_size.y : ℚ) * ((0.25 : ℚ) * (s.screen_scale : ℚ)))
          = ratTrunc ((cfg.vid_size.y : ℚ) + (0.25 : ℚ) * (s.screen_scale : ℚ) * (cfg.vid_size.y : ℚ))
        rw [ratTrunc_int_add cfg.vid_size.y _ hy (by positivity)]
        ring_nf
    · simp only [if_neg h0, if_neg hp]
      unfold IntVector2.mulFloat
      have harg : (0.85 : ℚ) * (-1) / (s.screen_scale : ℚ)
          = (0.85 : ℚ) * (-1 / (s.screen_scale : ℚ)) := by ring
      rw [harg]

/-- C3 witness: at scale level -1 with native size (10, 10) the displayed
size is (8, 8), matching trunc(10 * 0.85). -/
theorem change_screen_size_matches_spec_witness :
    (change_screen_size { cfg100 with vid_size := ⟨10, 10⟩ }
        { initialState cfg100 with screen_scale := -1 }).is_fullscreen = false
    ∧ (change_screen_size { cfg100 with vid_size := ⟨10, 10⟩ }
        { initialState cfg100 with screen_scale := -1 }).displayed_vid_size
      = spec_display_size ({ initialState cfg100 with screen_scale := -1 } : PlayerState).screen_scale
          ({ cfg100 with vid_size := ⟨10, 10⟩ } : VideoConfig).vid_size :=
  change_screen_size_matches_spec { cfg100 with vid_size := ⟨10, 10⟩ }
    { initialState cfg100 with screen_scale := -1 }
    (by decide) (by decide) (by decide) (by decide)

/-- C1: evaluation of the seek actions of the spec scenario, and of the
sentinel collision: from index 2 in a 100-frame 25 fps source, skipping
forward 3 seconds lands on 77 and skipping forward again lands on 100 (as
the claim states); but stepping one frame backward from index 0, in the
Paused state, computes target -1, which get_frame interprets as the
read-next-frame sentinel instead of clamping it to 0, so the player moves
forward to index 1. -/
theorem seek_clamp_sentinel_eval :
    ((skip_forward cfg100
        { initialState cfg100 with current_frame := 2, pos := 2, is_paused := true }).map
      PlayerState.current_frame = some 77)
    ∧ (((skip_forward cfg100
          { initialState cfg100 with current_frame := 2, pos := 2, is_paused := true }).bind
        (skip_forward cfg100)).map PlayerState.current_frame = some 100)
    ∧ ((skip_one_frame_backward cfg100
        { initialState cfg100 with is_paused := true }).map
      PlayerState.current_frame = some 1) := by
  refine ⟨by decide, by decide, by decide⟩

lemma quit_video_idem (s : PlayerState) : quit_video (quit_video s) = quit_video s := by
  simp only [quit_video]
  by_cases h : s.source_open <;> simp [h]

/-- C6: quitting from a Running or Paused state clears both loop flags
(so both wait loops terminate), and across any positive number of quit
invocations the source is released exactly once and the state after n
quits equals the state after one quit (idempotent teardown). -/
theorem quit_ended_release_once (s : PlayerState) (n : ℕ)
    (hstate : s.is_running = true ∨ s.is_paused = true)
    (hopen : s.source_open = true) (hn : 1 ≤ n) :
    (quit_video^[n] s).is_running = false ∧ (quit_video^[n] s).is_paused = false
    ∧ (quit_video^[n] s).release_count = s.release_count + 1
    ∧ quit_video^[n] s = quit_video s := by
  obtain ⟨m, rfl⟩ : ∃ m, n = m + 1 := ⟨n - 1, by omega⟩
  have hiter : quit_video^[m + 1] s = quit_video s := by
    induction m with
    | zero => rfl
    | succ k ih =>
      rw [Function.iterate_succ_apply', ih (by omega), quit_video_idem]
  rw [hiter]
  refine ⟨(quit_video_fields s).2.2.1, (quit_video_fields s).2.2.2.1, ?_, rfl⟩
  simp [quit_video, hopen]

/-- C6 witness: three consecutive quits from the initial running state. -/
theorem quit_ended_release_once_witness :
    (quit_video^[3] (initialState cfg100)).is_running = false
    ∧ (quit_video^[3] (initialState cfg100)).is_paused = false
    ∧ (quit_video^[3] (initialState cfg100)).release_count
      = (initialState cfg100).release_count + 1
    ∧ quit_video^[3] (initialState cfg100) = quit_video (initialState cfg100) :=
  quit_ended_release_once (initialState cfg100) 3 (Or.inl rfl) rfl (by decide)

/-- C8 witness: the sentinel, an unbound key (0), and the bound key Q. -/
theorem checkInputs_resolution_witness :
    checkInputs (-1) = none ∧ checkInputs 0 = none
    ∧ checkInputs 113 = some Action.quit_video :=
  ⟨checkInputs_resolution.1,
    checkInputs_resolution.2.1 0 (by decide),
    checkInputs_resolution.2.2 113 ⟨113, "Q", "Quit video player", Action.quit_video⟩ rfl⟩

/-- C2: screen_scale_up sets the level to min(4, level+1), screen_scale_down
sets it to max(-4, level-1), no other dispatched action changes it, and
starting from any level in [-4, 4], the level stays in [-4, 4] after every
finite sequence of dispatched actions. -/
theorem screen_scale_level_bounded (cfg : VideoConfig) :
    (∀ (s s' : PlayerState), applyAction cfg (some .screen_scale_up) s = some s' →
        s'.screen_scale = min 4 (s.screen_scale + 1))
    ∧ (∀ (s s' : PlayerState), applyAction cfg (some .screen_scale_down) s = some s' →
        s'.screen_scale = max (-4) (s.screen_scale - 1))
    ∧ (∀ (a : Option Action) (s s' : PlayerState), a ≠ some .screen_scale_up →
        a ≠ some .screen_scale_down → applyAction cfg a s = some s' →
        s'.screen_scale = s.screen_scale)
    ∧ (∀ (s : PlayerState) (t : ℤ), (get_frame cfg s t).2.screen_scale = s.screen_scale)
    ∧ (∀ (acts : List (Option Action)) (s s' : PlayerState),
        -4 ≤ s.screen_scale → s.screen_scale ≤ 4 →
        applyActions cfg acts s = some s' →
        -4 ≤ s'.screen_scale ∧ s'.screen_scale ≤ 4) := by
  refine ⟨?_, ?_, ?_, ?_, ?_⟩
  · intro s s' h
    exact (applyAction_screen_scale cfg _ h).1 rfl
  · intro s s' h
    exact (applyAction_screen_scale cfg _ h).2.1 rfl
  · intro a s s' h1 h2 h
    exact (applyAction_screen_scale cfg a h).2.2 h1 h2
  · intro s t
    exact get_frame_screen_scale cfg s t
  · intro acts s s' hl hr h
    exact applyActions_scale_bounds cfg acts hl hr h

/-- C2 witness: a concrete dispatched sequence (pause, then one-frame
step) from the initial state keeps the level in bounds. -/
theorem screen_scale_level_bounded_witness :
    -4 ≤ ({ initialState cfg100 with
            is_paused := true, current_frame := 1, pos := 1 } : PlayerState).screen_scale
    ∧ ({ initialState cfg100 with
         is_paused := true, current_frame := 1, pos := 1 } : PlayerState).screen_scale ≤ 4 :=
  (screen_scale_level_bounded cfg100).2.2.2.2
    [some .toggle_pause, some .skip_one_frame_forward] (initialState cfg100)
    { initialState cfg100 with is_paused := true, current_frame := 1, pos := 1 }
    (by decide) (by decide) (by decide)

/-- C5 amended: in every reachable state of the controller the frame
index lies in [0, totalFrameCount + 1]; the upper end totalFrameCount + 1
is attained exactly by the terminal failed read. -/
theorem current_frame_bounds (cfg : VideoConfig) (ha : 0 ≤ cfg.amount_of_frames)
    {s : PlayerState} (h : Reaches cfg s) :
    0 ≤ s.current_frame ∧ s.current_frame ≤ cfg.amount_of_frames + 1 := by
  rcases (reaches_good cfg ha h).1 with ⟨-, h0, h1⟩ | ⟨hc, -, -, -⟩
  · exact ⟨h0, by omega⟩
  · rw [hc]
    omega

/-- C5 amended witness: the state of the 1-frame source after the
terminal failed read, where the bound totalFrameCount + 1 is attained. -/
theorem current_frame_bounds_witness :
    0 ≤ (get_frame cfg1 (get_frame cfg1 (initialState cfg1) (-1)).2 (-1)).2.current_frame
    ∧ (get_frame cfg1 (get_frame cfg1 (initialState cfg1) (-1)).2 (-1)).2.current_frame
      ≤ cfg1.amount_of_frames + 1 :=
  current_frame_bounds cfg1 (by decide)
    (Reaches.runRead (Reaches.runRead Reaches.init rfl rfl) (by decide) (by decide))

/-- C5 counterexample: on a 1-frame source the main loop's final read,
which returns no frame, is reached after one successful read and leaves
current_frame = 2, outside [0, totalFrameCount] = [0, 1]. -/
theorem current_frame_exceeds_total_at_final_read :
    Reaches cfg1 (get_frame cfg1 (get_frame cfg1 (initialState cfg1) (-1)).2 (-1)).2
    ∧ (get_frame cfg1 (get_frame cfg1 (initialState cfg1) (-1)).2 (-1)).1 = false
    ∧ (get_frame cfg1 (get_frame cfg1 (initialState cfg1) (-1)).2 (-1)).2.current_frame = 2
    ∧ ¬((get_frame cfg1 (get_frame cfg1 (initialState cfg1) (-1)).2 (-1)).2.current_frame
        ≤ cfg1.amount_of_frames) :=
  ⟨Reaches.runRead (Reaches.runRead Reaches.init rfl rfl) (by decide) (by decide),
    by decide, by decide, by decide⟩

/-- C7: in every reachable state at which the loop dispatches input (the
player Running or Paused), each of the six view actions completes and
leaves current_frame, is_paused and is_running unchanged; for toggle
zoom, which has no code under src/, the spec-modelled action is used. -/
theorem view_actions_preserve_position (cfg : VideoConfig)
    (ha : 0 ≤ cfg.amount_of_frames) {s : PlayerState} (hr : Reaches cfg s)
    (hd : s.is_running = true ∨ s.is_paused = true) :
    ∀ a ∈ viewActions, ∃ s', applyAction cfg (some a) s = some s'
      ∧ s'.current_frame = s.current_frame ∧ s'.is_paused = s.is_paused
      ∧ s'.is_running = s.is_running := by
  obtain ⟨hdisj, hfs⟩ := reaches_good cfg ha hr
  rcases hdisj with ⟨hpos, h0, h1⟩ | ⟨-, -, hrf, hpf⟩
  · have hview := view_render_eq cfg s h0 h1
    intro a hav
    fin_cases hav
    · simp only [applyAction]
      rw [hview.2.2.1]
      exact ⟨_, rfl, rfl, rfl, rfl⟩
    · simp only [applyAction]
      rw [hview.2.2.2]
      exact ⟨_, rfl, rfl, rfl, rfl⟩
    · simp only [applyAction]
      by_cases hf : s.is_fullscreen = true
      · rw [toggle_fullscreen_eq_on cfg s hf h0 h1]
        exact ⟨_, rfl, rfl, rfl, rfl⟩
      · rw [toggle_fullscreen_eq_off cfg s (by simpa using hf) h0 h1]
        exact ⟨_, rfl, rfl, rfl, rfl⟩
    · simp only [applyAction]
      rw [hview.1]
      exact ⟨_, rfl, rfl, rfl, rfl⟩
    · simp only [applyAction]
      rw [hview.2.1]
      exact ⟨_, rfl, rfl, rfl, rfl⟩
    · exact ⟨_, rfl, rfl, rfl, rfl⟩
  · rcases hd with h | h
    · rw [h] at hrf
      cases hrf
    · rw [h] at hpf
      cases hpf

/-- C7 witness: toggling the debug overlay in the initial running state
of the 100-frame source. -/
theorem view_actions_preserve_position_witness :
    ∃ s', applyAction cfg100 (some Action.toggle_debug) (initialState cfg100) = some s'
      ∧ s'.current_frame = (initialState cfg100).current_frame
      ∧ s'.is_paused = (initialState cfg100).is_paused
      ∧ s'.is_running = (initialState cfg100).is_running :=
  view_actions_preserve_position cfg100 (by decide) Reaches.init (Or.inl rfl)
    Action.toggle_debug (by decide)

/-- C9 amended: in every reachable state (with a positive real frame
rate) the overlay lines include the elapsed/total minutes:seconds pair
(elapsed = current frame index divided by the real fps, floored) and the
current displayed resolution formatted as "(x, y)"; when fullscreen, that
displayed resolution is the overscanned monitor-derived size
monitorSize + (monitorSize.x // 64, 0), not the monitor size itself. -/
theorem overlay_lines (cfg : VideoConfig) (ha : 0 ≤ cfg.amount_of_frames)
    (hfps : 0 < cfg.realFPS) {s : PlayerState} (h : Reaches cfg s) :
    (convertTime (floordiv s.current_frame cfg.realFPS) ++ "/" ++ maxTime cfg)
      ∈ updateTexts cfg s
    ∧ ("R: " ++ IntVector2.str s.displayed_vid_size) ∈ updateTexts cfg s
    ∧ (s.is_fullscreen = true → s.displayed_vid_size = overscanSize cfg) := by
  refine ⟨?_, ?_, (reaches_good cfg ha h).2⟩
  · simp [updateTexts]
  · simp [updateTexts]

/-- C9 amended witness: the initial state of the 100-frame source. -/
theorem overlay_lines_witness :
    (convertTime (floordiv (initialState cfg100).current_frame cfg100.realFPS)
        ++ "/" ++ maxTime cfg100) ∈ updateTexts cfg100 (initialState cfg100)
    ∧ ("R: " ++ IntVector2.str (initialState cfg100).displayed_vid_size)
      ∈ updateTexts cfg100 (initialState cfg100)
    ∧ ((initialState cfg100).is_fullscreen = true →
        (initialState cfg100).displayed_vid_size = overscanSize cfg100) :=
  overlay_lines cfg100 (by decide) (by norm_num [cfg100]) Reaches.init

/-- C9 counterexample: in the reachable fullscreen state of the 100-frame
source with a 1920 by 1080 monitor, the resolution line reads
"R: (1950, 1080)" (the overscanned size), and no overlay line contains
the monitor size "(1920, 1080)" claimed by the spec. -/
theorem overlay_monitor_size_not_included :
    Reaches cfg100 fullscreenState
    ∧ fullscreenState.is_fullscreen = true
    ∧ updateTexts cfg100 fullscreenState = ["00:00/00:04", "R: (1950, 1080)", "F: -"]
    ∧ ("R: " ++ IntVector2.str cfg100.monitor_size) ∉ updateTexts cfg100 fullscreenState := by
  have htexts : updateTexts cfg100 fullscreenState
      = ["00:00/00:04", "R: (1950, 1080)", "F: -"] := by
    have h1 : floordiv fullscreenState.current_frame cfg100.realFPS = 0 := by
      norm_num [floordiv, fullscreenState, initialState, cfg100]
    have h2 : floordiv cfg100.amount_of_frames cfg100.realFPS = 4 := by
      norm_num [floordiv, cfg100]
    unfold updateTexts maxTime
    rw [h1, h2]
    rfl
  refine ⟨?_, rfl, htexts, ?_⟩
  · exact Reaches.runDispatch (some .toggle_fullscreen) Reaches.init rfl rfl
      (by decide) (by decide)
  · rw [htexts]
    decide

end VideoPlayer
